import Mathlib

/-!
Shallow embedding of `owmeta_pytest_plugin/__init__.py` (openworm/owmeta-pytest-plugin).

Paths are modelled as lists of components (`List String`); the filesystem as a
list of existing paths. Python `None` becomes `Option`, raised exceptions become
`Except` error values, and external collaborators (the `owmeta_core` bundle
library, `subprocess.check_output`, `textwrap.dedent`, the real filesystem) are
abstracted as function-valued environment records, since their code is not part
of this repository.
-/

namespace OwmetaPytestPlugin

/-- A filesystem path, as its list of components. -/
abbrev Path := List String

/-- Filesystem state: the list of paths (directories and files) that exist. -/
structure FsState where
  dirs : List Path
deriving DecidableEq, Repr

/-- `shutil.rmtree(root)`: recursively deletes `root`, i.e. removes every path
having `root` as a prefix (including `root` itself). -/
def rmtree (root : Path) (s : FsState) : FsState :=
  ⟨s.dirs.filter (fun q => !(root.isPrefixOf q))⟩

/-- The `shell_helper` fixture (source lines 224-234 together with
`Data.__init__`, lines 300-302): setup creates the temporary `testdir` and the
`test_homedir` directory `testdir/homedir` inside it; the body then runs (it may
finish normally, `none`, or raise, `some err`, leaving the filesystem in
whatever state it produced); the `finally` block deletes `testdir` recursively
on either exit path. -/
def shell_helper (testdir : Path) (s0 : FsState)
    (body : FsState → Option String × FsState) : Option String × FsState :=
  let s1 : FsState := ⟨(testdir ++ ["homedir"]) :: testdir :: s0.dirs⟩
  let r := body s1
  (r.1, rmtree testdir r.2)

/-! ## The command runner `Data.sh` (source lines 387-434)

`exec` abstracts `subprocess.check_output` run with cwd = `testdir`,
`HOME` = `test_homedir` and `PYTHONPATH` prefixed with `testdir`: it maps a
command line to its decoded output, or to a `CalledProcessError` (modelled as a
`String`). -/

/-- The `for cmd in command` loop of `Data.sh`: runs every command in order,
collecting outputs; the first `CalledProcessError` propagates (after the
banner-printing side effect, which has no filesystem meaning here). -/
def runCommands (exec : String → Except String String) :
    List String → Except String (List String)
  | [] => .ok []
  | c :: rest =>
    match exec c with
    | .error e => .error e
    | .ok out =>
      match runCommands exec rest with
      | .error e => .error e
      | .ok outs => .ok (out :: outs)

/-- Shape of `Data.sh`'s return value: `None` for no commands, a bare string
for one command, a list of strings for several. -/
inductive ShOutput
  | none
  | single (out : String)
  | multiple (outs : List String)
deriving DecidableEq, Repr

/-- `Data.sh(*command)`: returns `None` when no command was given, then runs
the commands in order and returns `outputs[0] if len(outputs) == 1 else
outputs`. -/
def sh (exec : String → Except String String) (command : List String) :
    Except String ShOutput :=
  if command = [] then .ok .none
  else
    match runCommands exec command with
    | .error e => .error e
    | .ok outputs =>
      .ok (if outputs.length = 1 then .single (outputs.headD "") else .multiple outputs)

/-! ## `Data.make_module` (source lines 328-357) and `Data.writefile` (359-385) -/

/-- `os.path.split`: splits off the last component; on components, that is
(everything but the last, last). `split_path ["a","b"] = (["a"], "b")`,
`split_path ["a"] = ([], "a")`, `split_path [] = ([], "")`. -/
def split_path (path : Path) : Path × String :=
  (path.dropLast, path.getLast?.getD "")

/-- A path argument as Python receives it: whether it is absolute
(`os.path.isabs`) plus its components. -/
structure ModulePath where
  absolute : Bool
  components : List String
deriving DecidableEq, Repr

/-- Renders a `ModulePath` the way `str(module)` appears in the `ValueError`
message of `make_module`. -/
def modPathStr (m : ModulePath) : String :=
  (if m.absolute then "/" else "") ++ String.intercalate "/" m.components

/-- The inner `while not base and last_dname != dname` loop of `make_module`
(source lines 353-355). Note it splits `modpath` — the full module path, fixed
across iterations — not `dname`. Fuel-bounded; the loop runs at most twice. -/
def mm_inner (modpath : Path) :
    Nat → Option Path → Path → String → Option Path × Path × String
  | 0, last_dname, dname, base => (last_dname, dname, base)
  | fuel + 1, last_dname, dname, base =>
    if base = "" ∧ last_dname ≠ some dname then
      let last_dname2 := some dname
      let (dname2, base2) := split_path modpath
      mm_inner modpath fuel last_dname2 dname2 base2
    else (last_dname, dname, base)

/-- The outer `while last_dname != dname and dname != self.testdir` loop of
`make_module` (source lines 350-355). Returns, in creation order, the list of
directories in which `open(p(dname, '__init__.py'), 'x')` is called.
`last_dname` starts as Python `None`. -/
def mm_outer (testdir modpath : Path) :
    Nat → Option Path → Path → List Path → List Path
  | 0, _, _, acc => acc
  | fuel + 1, last_dname, dname, acc =>
    if last_dname ≠ some dname ∧ dname ≠ testdir then
      let acc2 := acc ++ [dname]
      let (last_dname2, dname2, _base2) := mm_inner modpath (modpath.length + 2) last_dname dname ""
      mm_outer testdir modpath fuel last_dname2 dname2 acc2
    else acc

/-- `Data.make_module(module)`: raises `ValueError` on an absolute path, else
creates the directory chain `p(testdir, module)` and walks the marker-creation
loops. Returns the list of directories receiving an `__init__.py` file and the
returned `modpath`. -/
def make_module (testdir : Path) (module : ModulePath) :
    Except String (List Path × Path) :=
  if module.absolute then
    .error ("Must use a relative path. Given " ++ modPathStr module)
  else
    let modpath := testdir ++ module.components
    let markers := mm_outer testdir modpath (modpath.length + 2) Option.none modpath []
    .ok (markers, modpath)

/-- `Data.make_module` as a filesystem-state transformer: the `ValueError` for
an absolute path is raised before `os.makedirs`, so on that path the state is
returned unchanged; otherwise the created directory chain and the
`__init__.py` marker files are added to the state. -/
def make_module_fs (testdir : Path) (module : ModulePath) (fs : FsState) :
    Except String Path × FsState :=
  match make_module testdir module with
  | .error e => (.error e, fs)
  | .ok (markers, modpath) =>
    let createdDirs :=
      (List.range module.components.length).map
        (fun i => testdir ++ module.components.take (i + 1))
    (.ok modpath, ⟨markers.map (· ++ ["__init__.py"]) ++ createdDirs ++ fs.dirs⟩)

/-- Environment for `Data.writefile`: `fileContents p` is `some` of the file's
contents when `os.path.exists(p)` holds (with `open(p).read()`), else `none`;
`dedent` abstracts `textwrap.dedent`. -/
structure WriteEnv where
  fileContents : String → Option String
  dedent : String → String

/-- `os.path.join(testdir, name)` on string paths: an absolute `name` replaces
`testdir`. -/
def pjoin (testdir name : String) : String :=
  if name.startsWith "/" then name else testdir ++ "/" ++ name

/-- `Data.writefile(name, contents)`: `contents` defaults to `name`; the file
`p(testdir, name)` is opened for writing and `print(..., file=f)` writes either
the contents of the existing file named by `contents`, or `dedent(contents)`
— in both cases `print` appends a trailing newline. Returns the written path
and the bytes written. -/
def writefile (env : WriteEnv) (testdir name : String) (contents : Option String) :
    String × String :=
  let contents := contents.getD name
  let fname := pjoin testdir name
  let written :=
    match env.fileContents contents with
    | some src => src ++ "\n"
    | Option.none => env.dedent contents ++ "\n"
  (fname, written)

/-! ## The bundle fixture (`bundle_fixture_helper`, source lines 27-127) -/

/-- An element of the `remotes` list yielded by the fixture: either a `Remote`
resolved from the project configuration (identified by its name), or the
synthetic `Remote(f'test_{request.fixturename}', (TestAC(),))` built around the
fake loader. -/
inductive RemoteEntry
  | resolved (name : String)
  | fake (name : String)
deriving DecidableEq, Repr

/-- The `BundleData` namedtuple (source line 23). The fourth field is named
`remote` in the source even though it receives the `remotes` list. -/
structure BundleData where
  id : Option String
  version : Option Int
  source_directory : Option String
  remote : List RemoteEntry
deriving DecidableEq, Repr

/-- The errors the fixture body can raise: the two distinct usage `Exception`s
(with their messages), the propagated `BundleNotFound`, and a stand-in for the
`TypeError` Python raises when `request.param` has the wrong shape for
unpacking. -/
inductive BundleError
  | usageError (msg : String)
  | bundleNotFound
  | paramTypeError
deriving DecidableEq, Repr

/-- The closure state captured by `nonlocal version, bundle_id` (source line
47): assignments in one invocation persist into the next. -/
structure FixtureState where
  bundle_id : Option String
  version : Option Int
deriving DecidableEq, Repr

/-- The shape of `request.param` supplied by test parametrization: a
`(bundle_id, version)` pair (from the `bundles` decorator) or a bare version
(from the `bundle_versions` decorator). -/
inductive Param
  | pair (id : String) (v : Int)
  | ver (v : Int)
deriving DecidableEq, Repr

/-- The slice of the pytest `request` object the fixture reads: `request.param`
(`none` models the `AttributeError` when no parametrization was supplied), the
`bundle_remote` marker's first argument, and `request.fixturename`. -/
structure Request where
  param : Option Param
  marker : Option String
  fixturename : String

/-- External collaborators of the fixture: `bundlesDirectory` is the
`TEST_BUNDLES_DIRECTORY` setting; `remoteFile p` is `some` of the remote read
by `Remote.read` when the file `p` exists (`none` models `FileNotFoundError`);
`storedRemote n` models `retrieve_remote_by_name(p(DEFAULT_OWM_DIR, 'remotes'),
n)` (`none` for a falsy result); `findBundleDir` models
`find_bundle_directory(dir, bundle_id, version)` (`none` models
`BundleNotFound`). -/
structure BundleEnv where
  bundlesDirectory : String
  remoteFile : String → Option String
  storedRemote : String → Option String
  findBundleDir : String → Option String → Option Int → Option String

/-- Source lines 48-59: resolution of a deferred `bundle_id`/`version` from
`request.param`, updating the closure state. When both are already set the
parametrization is never consulted. A `pair` param where a bare version is
expected would be bound as-is in Python; the model reports it as
`paramTypeError` (the shapes the decorators produce never hit this case). -/
def resolveParams (st : FixtureState) (param : Option Param) :
    Except BundleError FixtureState :=
  if st.bundle_id = Option.none ∧ st.version = Option.none then
    match param with
    | Option.none =>
      .error (.usageError "Use the bundles decorator to declare bundle versions for this test")
    | some (.pair i v) => .ok ⟨some i, some v⟩
    | some (.ver _) => .error .paramTypeError
  else if st.version = Option.none then
    match param with
    | Option.none =>
      .error (.usageError "Use the bundle_versions decorator to declare bundle versions for this test")
    | some (.ver v) => .ok ⟨st.bundle_id, some v⟩
    | some (.pair _ _) => .error .paramTypeError
  else .ok st

/-- Source lines 61-79: resolution of the `bundle_remote` marker. Returns the
`remotes` list accumulated so far and the `remote_defined` flag. An empty
marker string is falsy in Python, like a missing marker. When `Remote.read`
succeeds on the file, the source sets `remote_defined = True` in the `else`
clause but never appends the remote to `remotes`; only the
`retrieve_remote_by_name` path appends. -/
def resolveRemote (env : BundleEnv) (marker : Option String) :
    List RemoteEntry × Bool :=
  match marker with
  | Option.none => ([], false)
  | some test_bundles_remote =>
    if test_bundles_remote = "" then ([], false)
    else
      match env.remoteFile test_bundles_remote with
      | some _ => ([], true)
      | Option.none =>
        match env.storedRemote test_bundles_remote with
        | some r => ([.resolved r], true)
        | Option.none => ([], false)

/-- What the fixture yields: the `BundleData` plus whether
`TestBundleLoader.register()` was called in this activation. -/
structure BundleYield where
  data : BundleData
  loaderRegistered : Bool
deriving DecidableEq, Repr

/-- Source lines 61-124, after parameter resolution: marker resolution, then
the `find_bundle_directory` lookup. On `BundleNotFound` the error is re-raised
unmodified unless a remote was defined, in which case `source_directory` is
`None` and no loader is registered; when the directory is found the fake
loader is registered and its synthetic remote appended to `remotes`. -/
def bundleMain (env : BundleEnv) (st : FixtureState) (marker : Option String)
    (fixturename : String) : Except BundleError BundleYield :=
  let rr := resolveRemote env marker
  match env.findBundleDir env.bundlesDirectory st.bundle_id st.version with
  | Option.none =>
    if !rr.2 then .error .bundleNotFound
    else .ok ⟨⟨st.bundle_id, st.version, Option.none, rr.1⟩, false⟩
  | some source_directory =>
    .ok ⟨⟨st.bundle_id, st.version, some source_directory,
          rr.1 ++ [.fake ("test_" ++ fixturename)]⟩, true⟩

/-- One invocation of the fixture function `bundle` produced by
`bundle_fixture_helper` (source lines 45-124): parameter resolution mutates
the closure state (which is returned alongside the result, updated even when a
later phase raises), then the body runs. -/
def bundle (env : BundleEnv) (st : FixtureState) (req : Request) :
    Except BundleError BundleYield × FixtureState :=
  match resolveParams st req.param with
  | .error e => (.error e, st)
  | .ok st2 => (bundleMain env st2 req.marker req.fixturename, st2)

/-- `TestBundleLoader.can_load(self, ident, version)` (source lines 111-112):
`return ident == bundle_id and version == version`. `bundle_id` is the
enclosing closure variable (an `Option`, as in Python it may be `None`), while
the second conjunct compares the `version` parameter with itself — the
parameter shadows the closure variable. -/
def TestBundleLoader.can_load (bundle_id : Option String) (ident : String)
    (version : Int) : Bool :=
  (some ident == bundle_id) && (version == version)

/-! ## Helper lemmas -/

/-- A list is a `isPrefixOf`-prefix of itself extended by any tail. -/
lemma isPrefixOf_append_self (l t : List String) : l.isPrefixOf (l ++ t) = true := by
  induction l with
  | nil => simp [List.isPrefixOf]
  | cons a as ih => simp [List.isPrefixOf, ih]

/-- A list is a `isPrefixOf`-prefix of itself. -/
lemma isPrefixOf_self (l : List String) : l.isPrefixOf l = true := by
  have h := isPrefixOf_append_self l []
  rwa [List.append_nil] at h

/-- On success, `runCommands` returns one output per command. -/
lemma runCommands_length (exec : String → Except String String) :
    ∀ command outputs, runCommands exec command = .ok outputs →
      outputs.length = command.length := by
  intro command
  induction command with
  | nil =>
    intro outputs h
    simp [runCommands] at h
    simp [← h]
  | cons c rest ih =>
    intro outputs h
    cases hc : exec c with
    | error e => simp [runCommands, hc] at h
    | ok out =>
      cases hr : runCommands exec rest with
      | error e => simp [runCommands, hc, hr] at h
      | ok outs =>
        simp [runCommands, hc, hr] at h
        simp [← h, ih outs hr]

/-- On success, the i-th output of `runCommands` is the output of the i-th
command: outputs come in call order. -/
lemma runCommands_get (exec : String → Except String String) :
    ∀ command outputs, runCommands exec command = .ok outputs →
      ∀ i (hi : i < command.length) (ho : i < outputs.length),
        exec (command.get ⟨i, hi⟩) = .ok (outputs.get ⟨i, ho⟩) := by
  intro command
  induction command with
  | nil =>
    intro outputs _ i hi
    exact absurd hi (by simp)
  | cons c rest ih =>
    intro outputs h i hi ho
    cases hc : exec c with
    | error e => simp [runCommands, hc] at h
    | ok out =>
      cases hr : runCommands exec rest with
      | error e => simp [runCommands, hc, hr] at h
      | ok outs =>
        simp [runCommands, hc, hr] at h
        subst h
        cases i with
        | zero => simpa using hc
        | succ j =>
          exact ih outs hr j (by simpa using hi) (by simpa using ho)

/-! ## Claim theorems -/

/-- C7: after the `shell_helper` fixture's teardown, no path under the sandbox
root remains: in particular the working directory `testdir` and the home
directory `testdir/homedir` no longer exist, regardless of the body's outcome
(normal or exceptional). -/
theorem sandbox_teardown (testdir : Path) (s0 : FsState)
    (body : FsState → Option String × FsState) :
    (∀ q ∈ ((shell_helper testdir s0 body).2).dirs, testdir.isPrefixOf q = false) ∧
    testdir ∉ ((shell_helper testdir s0 body).2).dirs ∧
    (testdir ++ ["homedir"]) ∉ ((shell_helper testdir s0 body).2).dirs := by
  have hall : ∀ q ∈ ((shell_helper testdir s0 body).2).dirs,
      testdir.isPrefixOf q = false := by
    intro q hq
    have hq2 : q ∈ (body ⟨(testdir ++ ["homedir"]) :: testdir :: s0.dirs⟩).2.dirs ∧
        (!(testdir.isPrefixOf q)) = true := by
      simpa [shell_helper, rmtree, List.mem_filter] using hq
    simpa using hq2.2
  refine ⟨hall, ?_, ?_⟩
  · intro hq
    have h1 := hall _ hq
    have h2 := isPrefixOf_self testdir
    rw [h1] at h2
    exact absurd h2 (by decide)
  · intro hq
    have h1 := hall _ hq
    have h2 := isPrefixOf_append_self testdir ["homedir"]
    rw [h1] at h2
    exact absurd h2 (by decide)

/-- C7 witness: a concrete sandbox run whose teardown removes both
directories. -/
theorem sandbox_teardown_witness :
    ["t"] ∉ ((shell_helper ["t"] ⟨[]⟩ (fun s => (Option.none, s))).2).dirs ∧
    ["t", "homedir"] ∉ ((shell_helper ["t"] ⟨[]⟩ (fun s => (Option.none, s))).2).dirs :=
  ⟨(sandbox_teardown ["t"] ⟨[]⟩ (fun s => (Option.none, s))).2.1,
   (sandbox_teardown ["t"] ⟨[]⟩ (fun s => (Option.none, s))).2.2⟩

/-- C6: when every command succeeds, `Data.sh` collects one output per command
in call order and returns the bare single output for one command, and the
ordered list of outputs for two or more commands — a `single` result is never
the same as a one-element `multiple` result. -/
theorem sh_output_shape (exec : String → Except String String)
    (command outputs : List String)
    (hrun : runCommands exec command = .ok outputs) :
    outputs.length = command.length ∧
    (∀ i (hi : i < command.length) (ho : i < outputs.length),
        exec (command.get ⟨i, hi⟩) = .ok (outputs.get ⟨i, ho⟩)) ∧
    (command.length = 1 → sh exec command = .ok (.single (outputs.headD ""))) ∧
    (2 ≤ command.length → sh exec command = .ok (.multiple outputs)) ∧
    (∀ o, ShOutput.single o ≠ ShOutput.multiple [o]) := by
  have hlen := runCommands_length exec command outputs hrun
  refine ⟨hlen, runCommands_get exec command outputs hrun, ?_, ?_, ?_⟩
  · intro h1
    have hne : ¬ command = [] := by
      intro hc
      rw [hc] at h1
      simp at h1
    simp [sh, hne, hrun, hlen, h1]
  · intro h2
    have hne : ¬ command = [] := by
      intro hc
      rw [hc] at h2
      simp at h2
    have hno : ¬ outputs.length = 1 := by omega
    simp [sh, hne, hrun, hno]
  · intro o h
    exact nomatch h

/-- C6 witness: a concrete run with two commands yields the two outputs as a
list, and with one command yields the bare output string. -/
theorem sh_output_shape_witness :
    sh (fun c => Except.ok c) ["echo a", "echo b"] = .ok (.multiple ["echo a", "echo b"]) ∧
    sh (fun c => Except.ok c) ["echo a"] = .ok (.single "echo a") :=
  ⟨(sh_output_shape (fun c => Except.ok c) ["echo a", "echo b"] ["echo a", "echo b"]
      rfl).2.2.2.1 (by decide),
   (sh_output_shape (fun c => Except.ok c) ["echo a"] ["echo a"] rfl).2.2.1 (by decide)⟩

/-- C2 counterexample: `can_load` is not permissive in the requested id — with
the fixture's bundle id `example/aBundle` it rejects the id
`example/otherBundle` (at version 23). -/
theorem can_load_rejects_other_id :
    TestBundleLoader.can_load (some "example/aBundle") "example/otherBundle" 23 = false := by
  decide

/-- C2 amended: `can_load(ident, version)` returns true iff `ident` equals the
closure's `bundle_id`; the `version` argument is compared against itself (the
parameter shadows the closure variable), so any version is accepted for the
matching id. -/
theorem can_load_iff_id_matches (bundle_id : Option String) (ident : String)
    (version : Int) :
    TestBundleLoader.can_load bundle_id ident version = (some ident == bundle_id) := by
  simp [TestBundleLoader.can_load]

/-- C3: evaluating `make_module` at the failing input `'a/b/c'` — the inner
loop splits the fixed `modpath` instead of the current `dname`, so
`__init__.py` markers are created only in `a/b/c` and `a/b`; the directory `a`
receives none, contrary to the method's docstring. -/
theorem make_module_abc_markers :
    make_module ["t"] ⟨false, ["a", "b", "c"]⟩ =
      .ok ([["t", "a", "b", "c"], ["t", "a", "b"]], ["t", "a", "b", "c"]) ∧
    ["t", "a"] ∉ [["t", "a", "b", "c"], ["t", "a", "b"]] :=
  ⟨rfl, by decide⟩

/-- C9: for every absolute path argument, `make_module` raises the
`ValueError` before `os.makedirs` runs, so the filesystem state is returned
unchanged and nothing is created. -/
theorem make_module_absolute_error (testdir : Path) (module : ModulePath)
    (fs : FsState) (h : module.absolute = true) :
    make_module_fs testdir module fs =
      (.error ("Must use a relative path. Given " ++ modPathStr module), fs) := by
  simp [make_module_fs, make_module, h]

/-- C9 witness: a concrete absolute path fails with the `ValueError` message
and leaves the empty filesystem unchanged. -/
theorem make_module_absolute_error_witness :
    make_module_fs ["t"] ⟨true, ["abs", "not", "okay"]⟩ ⟨[]⟩ =
      (.error "Must use a relative path. Given /abs/not/okay", ⟨[]⟩) := by
  have h := make_module_absolute_error ["t"] ⟨true, ["abs", "not", "okay"]⟩ ⟨[]⟩ rfl
  rw [h]
  rfl

/-- A concrete `writefile` environment for evaluation: the file `src.txt`
exists with contents `abc`; `dedent` is the identity. -/
def writeEnvC : WriteEnv :=
  ⟨fun s => if s = "src.txt" then some "abc" else Option.none, fun s => s⟩

/-- C4 counterexample: copying an existing file through `writefile` is not
byte-for-byte — the source file holds `abc` but the destination receives
`abc` followed by a newline, because `print(..., file=f)` appends one. -/
theorem writefile_not_verbatim :
    writeEnvC.fileContents "src.txt" = some "abc" ∧
    (writefile writeEnvC "/sandbox" "dst.txt" (some "src.txt")).2 ≠ "abc" := by
  refine ⟨rfl, ?_⟩
  decide

/-- C4 amended: `writefile` writes the file at `p(testdir, name)` and returns
that path; when the contents argument names an existing file that file's
contents are written followed by one appended newline, otherwise the dedented
literal string is written followed by one appended newline. -/
theorem writefile_writes_contents (env : WriteEnv) (testdir name : String)
    (contents : Option String) :
    (writefile env testdir name contents).1 = pjoin testdir name ∧
    (∀ src, env.fileContents (contents.getD name) = some src →
        (writefile env testdir name contents).2 = src ++ "\n") ∧
    (env.fileContents (contents.getD name) = Option.none →
        (writefile env testdir name contents).2 = env.dedent (contents.getD name) ++ "\n") := by
  refine ⟨rfl, ?_, ?_⟩
  · intro src h
    simp [writefile, h]
  · intro h
    simp [writefile, h]

/-- C4 witness: with the concrete environment, the copy branch writes the
source contents plus a newline, and the literal branch writes the dedented
string plus a newline. -/
theorem writefile_writes_contents_witness :
    (writefile writeEnvC "/sandbox" "dst.txt" (some "src.txt")).2 = "abc" ++ "\n" ∧
    (writefile writeEnvC "/sandbox" "other.txt" (some "hello")).2 = "hello" ++ "\n" :=
  ⟨(writefile_writes_contents writeEnvC "/sandbox" "dst.txt" (some "src.txt")).2.1 "abc" rfl,
   (writefile_writes_contents writeEnvC "/sandbox" "other.txt" (some "hello")).2.2 rfl⟩

/-- A concrete bundle environment in which the marker names an existing
serialized-remote file (read as remote `R`) and the local bundle directory for
`example/aBundle` at version 23 exists. -/
def envFileRemote : BundleEnv :=
  ⟨"bundles",
   fun s => if s = "test.remote" then some "R" else Option.none,
   fun _ => Option.none,
   fun d i v =>
     if d = "bundles" ∧ i = some "example/aBundle" ∧ v = some 23 then
       some "bundles/example_aBundle/23"
     else Option.none⟩

/-- C1: evaluating the fixture at the failing input — the `bundle_remote`
marker names a file that `Remote.read` reads successfully (remote `R`) and the
local source directory is found, yet the yielded remotes list holds only the
fake provider's remote: the file-read remote is never appended (`remotes` is
only appended to in the `retrieve_remote_by_name` path, source lines 75-79). -/
theorem bundle_drops_file_remote :
    envFileRemote.remoteFile "test.remote" = some "R" ∧
    (bundle envFileRemote ⟨some "example/aBundle", some 23⟩
        ⟨Option.none, some "test.remote", "bundle"⟩).1 =
      .ok ⟨⟨some "example/aBundle", some 23, some "bundles/example_aBundle/23",
            [RemoteEntry.fake "test_bundle"]⟩, true⟩ ∧
    RemoteEntry.resolved "R" ∉ [RemoteEntry.fake "test_bundle"] := by
  refine ⟨rfl, rfl, ?_⟩
  decide

/-- C5: when `find_bundle_directory` raises `BundleNotFound` after parameter
resolution: with no remote defined the `BundleNotFound` propagates unmodified;
with a remote defined the fixture yields a descriptor whose
`source_directory` is `None` and registers no fake loader. -/
theorem bundle_notfound_handling (env : BundleEnv) (st st2 : FixtureState)
    (req : Request)
    (hp : resolveParams st req.param = .ok st2)
    (hf : env.findBundleDir env.bundlesDirectory st2.bundle_id st2.version = Option.none) :
    ((resolveRemote env req.marker).2 = false →
      bundle env st req = (.error .bundleNotFound, st2)) ∧
    ((resolveRemote env req.marker).2 = true →
      bundle env st req =
        (.ok ⟨⟨st2.bundle_id, st2.version, Option.none,
               (resolveRemote env req.marker).1⟩, false⟩, st2)) := by
  constructor
  · intro h
    simp [bundle, hp, bundleMain, hf, h]
  · intro h
    simp [bundle, hp, bundleMain, hf, h]

/-- A concrete bundle environment with no remote file, a stored remote named
`myremote` (resolving to `R`), and no local bundle directory at all. -/
def envNoBundle : BundleEnv :=
  ⟨"bundles",
   fun _ => Option.none,
   fun s => if s = "myremote" then some "R" else Option.none,
   fun _ _ _ => Option.none⟩

/-- C5 witness: with the concrete environment and no marker, `BundleNotFound`
propagates; with the marker naming the stored remote, the fixture yields a
descriptor with no source directory, the resolved remote, and no loader. -/
theorem bundle_notfound_handling_witness :
    bundle envNoBundle ⟨some "b", some 1⟩ ⟨Option.none, Option.none, "bundle"⟩ =
      (.error .bundleNotFound, ⟨some "b", some 1⟩) ∧
    bundle envNoBundle ⟨some "b", some 1⟩ ⟨Option.none, some "myremote", "bundle"⟩ =
      (.ok ⟨⟨some "b", some 1, Option.none, [RemoteEntry.resolved "R"]⟩, false⟩,
       ⟨some "b", some 1⟩) :=
  ⟨(bundle_notfound_handling envNoBundle ⟨some "b", some 1⟩ ⟨some "b", some 1⟩
      ⟨Option.none, Option.none, "bundle"⟩ rfl rfl).1 rfl,
   (bundle_notfound_handling envNoBundle ⟨some "b", some 1⟩ ⟨some "b", some 1⟩
      ⟨Option.none, some "myremote", "bundle"⟩ rfl rfl).2 rfl⟩

/-- C8: with no parametrization (`request.param` absent), deferred id+version
raises the descriptive `bundles`-decorator usage error, and a deferred version
alone raises the `bundle_versions`-decorator usage error; both are distinct
from `BundleNotFound`. -/
theorem bundle_usage_errors (env : BundleEnv) (req : Request) (bid : String)
    (h : req.param = Option.none) :
    bundle env ⟨Option.none, Option.none⟩ req =
      (.error (.usageError
        "Use the bundles decorator to declare bundle versions for this test"),
       ⟨Option.none, Option.none⟩) ∧
    bundle env ⟨some bid, Option.none⟩ req =
      (.error (.usageError
        "Use the bundle_versions decorator to declare bundle versions for this test"),
       ⟨some bid, Option.none⟩) ∧
    (∀ msg, BundleError.usageError msg ≠ BundleError.bundleNotFound) := by
  refine ⟨?_, ?_, ?_⟩
  · simp [bundle, resolveParams, h]
  · simp [bundle, resolveParams, h]
  · intro msg hc
    exact nomatch hc

/-- C8 witness: the concrete unparametrized request yields the two distinct
usage errors. -/
theorem bundle_usage_errors_witness :
    bundle envNoBundle ⟨Option.none, Option.none⟩ ⟨Option.none, Option.none, "bundle"⟩ =
      (.error (.usageError
        "Use the bundles decorator to declare bundle versions for this test"),
       ⟨Option.none, Option.none⟩) ∧
    bundle envNoBundle ⟨some "b", Option.none⟩ ⟨Option.none, Option.none, "bundle"⟩ =
      (.error (.usageError
        "Use the bundle_versions decorator to declare bundle versions for this test"),
       ⟨some "b", Option.none⟩) :=
  ⟨(bundle_usage_errors envNoBundle ⟨Option.none, Option.none, "bundle"⟩ "b" rfl).1,
   (bundle_usage_errors envNoBundle ⟨Option.none, Option.none, "bundle"⟩ "b" rfl).2.1⟩

/-- C10: the fixture closure is stateful — a first invocation that resolves
id and version from parametrization overwrites the closure state to those
values; any later invocation with that state ignores its own `request.param`
entirely (the result is the same for every param) and, whenever it yields,
yields the first invocation's id and version. -/
theorem bundle_fixture_stateful (env env2 : BundleEnv) (req1 req2 : Request)
    (bid : String) (v : Int) (p2 : Option Param)
    (h1 : req1.param = some (.pair bid v)) :
    (bundle env ⟨Option.none, Option.none⟩ req1).2 = ⟨some bid, some v⟩ ∧
    bundle env2 ⟨some bid, some v⟩ req2 =
      bundle env2 ⟨some bid, some v⟩ ⟨p2, req2.marker, req2.fixturename⟩ ∧
    (∀ y, (bundle env2 ⟨some bid, some v⟩ req2).1 = .ok y →
        y.data.id = some bid ∧ y.data.version = some v) := by
  refine ⟨?_, ?_, ?_⟩
  · simp [bundle, resolveParams, h1]
  · simp [bundle, resolveParams]
  · intro y hy
    simp only [bundle, resolveParams] at hy
    simp at hy
    cases hf : env2.findBundleDir env2.bundlesDirectory (some bid) (some v) with
    | none =>
      by_cases hrd : (resolveRemote env2 req2.marker).2 = true
      · simp [bundleMain, hf, hrd] at hy
        simp [← hy]
      · have hrd2 : (resolveRemote env2 req2.marker).2 = false := by
          simpa using hrd
        simp [bundleMain, hf, hrd2] at hy
    | some d =>
      simp [bundleMain, hf] at hy
      simp [← hy]

/-- C10 witness: a concrete first invocation stores `example/aBundle` at
version 23 in the closure state. -/
theorem bundle_fixture_stateful_witness :
    (bundle envNoBundle ⟨Option.none, Option.none⟩
        ⟨some (.pair "example/aBundle" 23), Option.none, "bundle"⟩).2 =
      ⟨some "example/aBundle", some 23⟩ :=
  (bundle_fixture_stateful envNoBundle envNoBundle
    ⟨some (.pair "example/aBundle" 23), Option.none, "bundle"⟩
    ⟨Option.none, Option.none, "bundle"⟩ "example/aBundle" 23 Option.none rfl).1

end OwmetaPytestPlugin
